import Mathlib

/-!
Verification of the Phoenix gadget-inventory service: a shallow embedding of
the gadget lifecycle manager (creation with bounded name retries, status
update, decommissioning, and the two-phase self-destruct protocol) together
with its HTTP controllers, and proofs of the specified properties.

The durable store is modelled as a list of gadget rows; every service
operation returns the new store paired with the result it hands to the
controller, so that errors leave the store visibly unchanged.
-/

namespace Phoenix

/-! ## ASCII case conversion (JS `toLowerCase` / `toUpperCase` on ASCII data) -/

/-- Lower-case a string character by character, as JS `toLowerCase` does on
the ASCII strings this service handles. -/
def strToLower (s : String) : String := ⟨s.data.map Char.toLower⟩

/-- Upper-case a string character by character, as JS `toUpperCase` does on
the ASCII strings this service handles. -/
def strToUpper (s : String) : String := ⟨s.data.map Char.toUpper⟩

theorem char_toNat_ofNat {n : Nat} (h : n.isValidChar) : (Char.ofNat n).toNat = n := by
  simp only [Char.ofNat, dif_pos h, Char.ofNatAux, Char.toNat, UInt32.toNat]
  simp [BitVec.toNat_ofNatLt]

theorem char_ofNat_toNat (c : Char) : Char.ofNat c.toNat = c := by
  have h : c.toNat.isValidChar := c.valid
  apply Char.eq_of_val_eq
  apply UInt32.eq_of_toBitVec_eq
  simp only [Char.ofNat, dif_pos h, Char.ofNatAux]
  apply BitVec.eq_of_toNat_eq
  simp [BitVec.toNat_ofNatLt, Char.toNat, UInt32.toNat]

theorem char_toLower_toUpper (c : Char) : c.toLower.toUpper = c.toUpper := by
  unfold Char.toLower Char.toUpper
  by_cases h : c.toNat ≥ 65 ∧ c.toNat ≤ 90
  · have hv : (c.toNat + 32).isValidChar := by
      exact Or.inl (by omega)
    rw [if_pos h]
    rw [char_toNat_ofNat hv]
    rw [if_pos (by omega), if_neg (by omega)]
    have : c.toNat + 32 - 32 = c.toNat := by omega
    rw [this, char_ofNat_toNat]
  · rw [if_neg h]

theorem strToUpper_of_strToLower {s t : String} (h : strToLower s = t) :
    strToUpper s = strToUpper t := by
  subst h
  unfold strToLower strToUpper
  simp only [List.map_map]
  apply congrArg
  apply List.map_congr_left
  intro c _
  exact (char_toLower_toUpper c).symm

/-! ## Data model (prisma/schema.prisma, spec section 3)

The gadget entity: `id`, globally unique `name`, `status` (enum, default
`AVAILABLE`), nullable `decommissionedAt`, nullable `confirmationCode`,
and the owning `userId`.  Timestamps are modelled with `Nat`. -/

inductive Status where
  | AVAILABLE
  | DEPLOYED
  | DESTROYED
  | DECOMMISSIONED
deriving DecidableEq, Repr

structure Gadget where
  id : String
  name : String
  status : Status
  decommissionedAt : Option Nat
  confirmationCode : Option String
  userId : String
deriving DecidableEq, Repr

/-- `select { id, name, status }` projection returned by create, update and
decommission. -/
structure GadgetView where
  id : String
  name : String
  status : Status
deriving DecidableEq, Repr

/-- `select { id, name, confirmationCode }` projection returned by
`initiateSelfDestruct`. -/
structure SelfDestructView where
  id : String
  name : String
  confirmationCode : Option String
deriving DecidableEq, Repr

/-- `select { id, name }` projection returned by `confirmSelfDestruct`. -/
structure DestroyedView where
  id : String
  name : String
deriving DecidableEq, Repr

/-- Prisma error codes relevant to the service layer: `P2002` is a
unique-constraint violation, `P2025` is record-not-found. -/
inductive PrismaError where
  | P2002
  | P2025
  | unknown
deriving DecidableEq, Repr

/-! ## The durable store

The store is a list of gadget rows.  Prisma `where: { userId, id }` clauses
filter jointly on the unique `id` and the `userId`. -/

def gadgetMatches (uid gid : String) (g : Gadget) : Bool :=
  decide (g.id = gid ∧ g.userId = uid)

/-- `prisma.gadget.findUnique({ where: { userId, id } })`. -/
def prismaFindUniqueGadget (store : List Gadget) (uid gid : String) : Option Gadget :=
  store.find? (gadgetMatches uid gid)

/-- `prisma.gadget.update({ where: { userId, id }, data })`: update the row
matching both the id and the owner, or fail with `P2025` when no row
matches (absent id and foreign owner are indistinguishable here). -/
def prismaUpdateGadget (store : List Gadget) (uid gid : String) (f : Gadget → Gadget) :
    Except PrismaError (List Gadget × Gadget) :=
  match store.find? (gadgetMatches uid gid) with
  | none => .error .P2025
  | some g => .ok (store.map fun h => if gadgetMatches uid gid h then f h else h, f g)

/-- `prisma.gadget.create({ data: { name, userId } })`: insert a fresh row
with the schema defaults (`status AVAILABLE`, null `decommissionedAt` and
`confirmationCode`), or fail with `P2002` when the unique `name` is taken.
The store assigns the row id `nid`. -/
def prismaCreateGadget (store : List Gadget) (name uid nid : String) :
    Except PrismaError (List Gadget × Gadget) :=
  if store.any fun g => decide (g.name = name) then .error .P2002
  else
    let g : Gadget := { id := nid, name := name, status := .AVAILABLE,
                        decommissionedAt := none, confirmationCode := none, userId := uid }
    .ok (store ++ [g], g)

/-! ## Gadget name generation (utils/gadgetNameGenerator.js) -/

def adjectives : List String :=
  ["silent", "shadow", "ghost", "blazing", "crimson", "mighty",
   "phantom", "steel", "night", "frost", "vengeful", "stormy",
   "lone", "silver", "venomous", "arcane"]

def nouns : List String :=
  ["falcon", "panther", "hawk", "blade", "dagger", "raven",
   "phantom", "vigil", "hound", "knight", "serpent", "phantasm",
   "warden", "prowler", "sting", "sentinel"]

/-- `generateGadgetName`: compose `the-<adjective>-<noun>` from one random
in-range index into each fixed list (`Math.floor(Math.random() * len)`
always lands in `[0, len)`). -/
def generateGadgetName (i : Fin adjectives.length) (j : Fin nouns.length) : String :=
  "the-" ++ adjectives.get i ++ "-" ++ nouns.get j

/-! ## Service layer (services/database.js) -/

def MAX_RETRIES : Nat := 5

/-- The body of the `for (let i = 0; i < MAX_RETRIES; i++)` loop of
`createGadget`: attempt the insert with a freshly generated name; on a
`P2002` name collision continue with the next attempt, on any other store
error stop with the internal error, and when the attempts are exhausted
stop with the name-exhaustion error.  `i` is the loop counter, the second
result component counts the insert attempts performed. -/
def createGadgetLoop (uid nid : String) (rnd : Nat → Fin adjectives.length × Fin nouns.length)
    (store : List Gadget) : Nat → Nat → (List Gadget × Except String GadgetView) × Nat
  | i, 0 => ((store, .error "Failed to generate unique gadget name after multiple attempts"), i)
  | i, fuel + 1 =>
    let gadgetName := generateGadgetName (rnd i).1 (rnd i).2
    match prismaCreateGadget store gadgetName uid nid with
    | .ok (s, g) => ((s, .ok ⟨g.id, g.name, g.status⟩), i + 1)
    | .error .P2002 => createGadgetLoop uid nid rnd store (i + 1) fuel
    | .error _ => ((store, .error "Internal server error"), i + 1)

/-- `createGadget(userId)` with the random index stream `rnd` and the
store-assigned row id `nid`. -/
def createGadget (store : List Gadget) (uid : String)
    (rnd : Nat → Fin adjectives.length × Fin nouns.length) (nid : String) :
    List Gadget × Except String GadgetView :=
  (createGadgetLoop uid nid rnd store 0 MAX_RETRIES).1

/-- Number of insert attempts a `createGadget` call performs. -/
def createGadgetAttempts (store : List Gadget) (uid : String)
    (rnd : Nat → Fin adjectives.length × Fin nouns.length) (nid : String) : Nat :=
  (createGadgetLoop uid nid rnd store 0 MAX_RETRIES).2

def statusToString : Status → String
  | .AVAILABLE => "AVAILABLE"
  | .DEPLOYED => "DEPLOYED"
  | .DESTROYED => "DESTROYED"
  | .DECOMMISSIONED => "DECOMMISSIONED"

/-- Item of the `select { id, name }` listing projection. -/
structure GadgetListItem where
  id : String
  name : String
deriving DecidableEq, Repr

/-- `getGadgets(type, userId)`: gadgets of the user filtered by status;
`type = "ALL"` keeps exactly the `AVAILABLE` and `DEPLOYED` rows
(`status: { in: ['AVAILABLE','DEPLOYED'] }`), any other type keeps the rows
whose status equals it. -/
def getGadgets (store : List Gadget) (type uid : String) : List GadgetListItem :=
  (store.filter fun g =>
      decide (g.userId = uid ∧
        (if type ≠ "ALL" then statusToString g.status = type
         else g.status = Status.AVAILABLE ∨ g.status = Status.DEPLOYED))).map
    fun g => { id := g.id, name := g.name }

/-- `updateGadgetStatus(userId, gadgetId, status)`: single-row update of the
status; `P2025` becomes the merged not-found-or-unauthorized error. -/
def updateGadgetStatus (store : List Gadget) (uid gid : String) (status : Status) :
    List Gadget × Except String GadgetView :=
  match prismaUpdateGadget store uid gid (fun g => { g with status := status }) with
  | .ok (s, g) => (s, .ok ⟨g.id, g.name, g.status⟩)
  | .error .P2025 => (store, .error "Gadget not found or you do not have permission to update it")
  | .error _ => (store, .error "Internal server error")

/-- `decommissionGadget(userId, gadgetId)`: atomically set
`decommissionedAt = now` and `status = DECOMMISSIONED`. -/
def decommissionGadget (store : List Gadget) (uid gid : String) (now : Nat) :
    List Gadget × Except String GadgetView :=
  match prismaUpdateGadget store uid gid
      (fun g => { g with decommissionedAt := some now, status := .DECOMMISSIONED }) with
  | .ok (s, g) => (s, .ok ⟨g.id, g.name, g.status⟩)
  | .error .P2025 => (store, .error "Gadget not found or you do not have permission to delete it")
  | .error _ => (store, .error "Internal server error")

/-! ## Confirmation-code derivation

`crypto.randomBytes(6).toString('base64').replace(/[^a-zA-Z]/g, '').slice(0, 6)`:
base64-encode the six random bytes, drop every character that is not a
letter, and keep at most the first six characters. -/

def base64Alphabet : List Char :=
  "ABCDEFGHIJKLMNOPQRSTUVWXYZabcdefghijklmnopqrstuvwxyz0123456789+/".data

def b64Char (n : Nat) : Char := base64Alphabet.getD n '='

/-- RFC 4648 base64 of a byte list (bytes as `Nat` below 256); six input
bytes yield eight output characters with no padding. -/
def base64Encode : List Nat → List Char
  | [] => []
  | [b1] => [b64Char (b1 / 4), b64Char (b1 % 4 * 16), '=', '=']
  | [b1, b2] => [b64Char (b1 / 4), b64Char (b1 % 4 * 16 + b2 / 16), b64Char (b2 % 16 * 4), '=']
  | b1 :: b2 :: b3 :: rest =>
      b64Char (b1 / 4) :: b64Char (b1 % 4 * 16 + b2 / 16) ::
      b64Char (b2 % 16 * 4 + b3 / 64) :: b64Char (b3 % 64) :: base64Encode rest

/-- The confirmation code the service derives from the six random bytes. -/
def confirmationCodeFromBytes (bytes : List Nat) : String :=
  ⟨((base64Encode bytes).filter Char.isAlpha).take 6⟩

/-- `initiateSelfDestruct(userId, gadgetId)` with the bytes drawn from
`crypto.randomBytes(6)`: persist the derived confirmation code on the
gadget; nothing else of the row is touched. -/
def initiateSelfDestruct (store : List Gadget) (uid gid : String) (randomBytes : List Nat) :
    List Gadget × Except String SelfDestructView :=
  match prismaUpdateGadget store uid gid
      (fun g => { g with confirmationCode := some (confirmationCodeFromBytes randomBytes) }) with
  | .ok (s, g) => (s, .ok ⟨g.id, g.name, g.confirmationCode⟩)
  | .error .P2025 =>
      (store, .error "Gadget not found or you do not have permission to self-destruct it")
  | .error _ => (store, .error "Internal server error")

/-- The `try` block of `confirmSelfDestruct(userId, gadgetId, confirmationCode)`:
look the gadget up (owner-scoped), throw when it is absent, throw when the
stored code mismatches, otherwise set `status = DESTROYED` and clear
`confirmationCode` in one atomic update. -/
def confirmSelfDestructBody (store : List Gadget) (uid gid code : String) :
    List Gadget × Except String DestroyedView :=
  match prismaFindUniqueGadget store uid gid with
  | none => (store, .error "Gadget not found or you do not have permission to self-destruct it")
  | some g =>
    if g.confirmationCode ≠ some code then
      (store, .error "Invalid confirmation code")
    else
      match prismaUpdateGadget store uid gid
          (fun h => { h with status := .DESTROYED, confirmationCode := none }) with
      | .ok (s, h) => (s, .ok ⟨h.id, h.name⟩)
      | .error _ => (store, .error "P2025")

/-- `confirmSelfDestruct`: the whole body runs inside one `try`, and the
`catch` block rethrows every error as the generic internal error, so the
inner not-found and invalid-code throws never reach the caller as such. -/
def confirmSelfDestruct (store : List Gadget) (uid gid code : String) :
    List Gadget × Except String DestroyedView :=
  match confirmSelfDestructBody store uid gid code with
  | (s, .ok v) => (s, .ok v)
  | (_, .error _) => (store, .error "Internal server error")

/-! ## Controller layer (controllers/gadgetController.js) -/

/-- An HTTP-level outcome: a success response or an error response, each
with its status code. -/
inductive ApiResult (α : Type) where
  | ok (status : Nat) (message : String) (payload : α)
  | err (status : Nat) (message : String)
deriving DecidableEq, Repr

def allowedStatuses : List String := ["available", "deployed"]

/-- `updateGadget` controller: require both fields, reject any target status
outside `available`/`deployed` (case-insensitively) before touching the
store, and otherwise pass the upper-cased target through to
`updateGadgetStatus` (the store's status enum parses exactly
`"AVAILABLE"` and `"DEPLOYED"`, the only values the guard lets through). -/
def updateGadget (store : List Gadget) (uid gid target : String) :
    List Gadget × ApiResult GadgetView :=
  if gid = "" ∨ target = "" then
    (store, .err 400 "Gadget ID and status are required")
  else if !(allowedStatuses.contains (strToLower target)) then
    (store, .err 400 "Invalid status. Allowed statuses are: available & deployed")
  else
    let st : Status := if strToUpper target = "AVAILABLE" then .AVAILABLE else .DEPLOYED
    match updateGadgetStatus store uid gid st with
    | (s, .ok v) => (s, .ok 200 "Gadget status updated successfully" v)
    | (s, .error e) => (s, .err 500 e)

/-- One display line of the listing: the gadget name with a freshly rolled
success probability. -/
def displayLine (name : String) (p : Nat) : String :=
  name ++ " - " ++ toString p ++ "% success probability"

/-- The controller's `for (const gadget of gadgets)` loop: one display line
per listed gadget, each with its own roll `prob k` of
`Math.floor(Math.random() * 100) + 1`. -/
def displayAll (prob : Nat → Nat) : Nat → List GadgetListItem → List String
  | _, [] => []
  | k, g :: gs => displayLine g.name (prob k) :: displayAll prob (k + 1) gs

/-- Body of a listing response. -/
structure ListResponse where
  message : String
  gadgets : List String
deriving DecidableEq, Repr

/-- `getAllGadgets` controller: when a truthy `status` query parameter is
given and its lower-casing is an allowed filter, list by the upper-cased
status; in every other case (no parameter, empty parameter, or a value
outside the allowed filters) fall through to the unfiltered `"ALL"`
listing. -/
def getAllGadgets (store : List Gadget) (uid : String) (statusQ : Option String)
    (prob : Nat → Nat) : ListResponse :=
  let allResponse : ListResponse :=
    { message := "All gadgets fetched successfully",
      gadgets := displayAll prob 0 (getGadgets store "ALL" uid) }
  match statusQ with
  | some s =>
      if s ≠ "" ∧ allowedStatuses.contains (strToLower s) then
        let type := strToUpper s
        { message := "Gadgets of type " ++ type ++ " fetched successfully",
          gadgets := displayAll prob 0 (getGadgets store type uid) }
      else allResponse
  | none => allResponse

/-! ## Reachable store states

A store state is reachable when it arises from the empty store by any
sequence of the five lifecycle operations (status updates go through the
controller, which validates the target before the store is touched). -/

inductive Reach : List Gadget → Prop where
  | empty : Reach []
  | create (s : List Gadget) (uid : String)
      (rnd : Nat → Fin adjectives.length × Fin nouns.length) (nid : String) :
      Reach s → Reach (createGadget s uid rnd nid).1
  | update (s : List Gadget) (uid gid target : String) :
      Reach s → Reach (updateGadget s uid gid target).1
  | decommission (s : List Gadget) (uid gid : String) (now : Nat) :
      Reach s → Reach (decommissionGadget s uid gid now).1
  | selfDestructInit (s : List Gadget) (uid gid : String) (bytes : List Nat) :
      Reach s → Reach (initiateSelfDestruct s uid gid bytes).1
  | selfDestructConfirm (s : List Gadget) (uid gid code : String) :
      Reach s → Reach (confirmSelfDestruct s uid gid code).1

/-- A decommission timestamp is present on every `DECOMMISSIONED` row. -/
def decomStamped (g : Gadget) : Prop :=
  g.status = Status.DECOMMISSIONED → g.decommissionedAt ≠ none

/-- Store-wide form of `decomStamped`. -/
def StoreStamped (s : List Gadget) : Prop := ∀ g ∈ s, decomStamped g

/-! ## Demo fixtures used by witnesses and counterexamples -/

/-- A constant random stream: always pick the first adjective and noun. -/
def rnd0 : Nat → Fin adjectives.length × Fin nouns.length :=
  fun _ => (⟨0, by decide⟩, ⟨0, by decide⟩)

/-- A constant probability roll. -/
def prob42 : Nat → Nat := fun _ => 42

/-- A user-1 gadget with a pending self-destruct code. -/
def pendingGadget : Gadget :=
  { id := "g1", name := "the-silent-falcon", status := .AVAILABLE,
    decommissionedAt := none, confirmationCode := some "ABCDEF", userId := "u1" }

def pendingStore : List Gadget := [pendingGadget]

/-- A store whose only gadget `g1` belongs to user 2. -/
def otherOwnerStore : List Gadget :=
  [{ id := "g1", name := "the-silent-falcon", status := .AVAILABLE,
     decommissionedAt := none, confirmationCode := none, userId := "u2" }]

/-- A store already holding the one name `rnd0` can ever generate. -/
def collideStore : List Gadget :=
  [{ id := "g0", name := "the-silent-falcon", status := .AVAILABLE,
     decommissionedAt := none, confirmationCode := none, userId := "u0" }]

/-- A fresh user-1 gadget, as created from the empty store. -/
def demoCreated : List Gadget := (createGadget [] "u1" rnd0 "g1").1

/-- The same gadget after decommissioning at time 5. -/
def demoDecommissioned : List Gadget := (decommissionGadget demoCreated "u1" "g1" 5).1

/-- The same gadget after a subsequent status update back to `DEPLOYED`:
the decommission timestamp survives the update. -/
def demoRevived : List Gadget := (updateGadget demoDecommissioned "u1" "g1" "deployed").1

/-- A mixed store for the listing properties: user 1 owns one gadget in
each status, user 2 owns one available gadget. -/
def mixedStore : List Gadget :=
  [{ id := "g1", name := "the-silent-falcon", status := .AVAILABLE,
     decommissionedAt := none, confirmationCode := none, userId := "u1" },
   { id := "g2", name := "the-shadow-panther", status := .DEPLOYED,
     decommissionedAt := none, confirmationCode := none, userId := "u1" },
   { id := "g3", name := "the-ghost-hawk", status := .DESTROYED,
     decommissionedAt := none, confirmationCode := none, userId := "u1" },
   { id := "g4", name := "the-blazing-blade", status := .DECOMMISSIONED,
     decommissionedAt := some 3, confirmationCode := none, userId := "u1" },
   { id := "g5", name := "the-crimson-dagger", status := .AVAILABLE,
     decommissionedAt := none, confirmationCode := none, userId := "u2" }]

/-! ## Store update lemmas -/

theorem find?_map_update {α : Type} (p : α → Bool) (f : α → α) (l : List α) (a : α)
    (hp : ∀ x, p x = true → p (f x) = true) (h : l.find? p = some a) :
    (l.map fun x => if p x then f x else x).find? p = some (f a) := by
  induction l with
  | nil => simp at h
  | cons x xs ih =>
    by_cases hx : p x = true
    · rw [List.find?_cons_of_pos _ hx] at h
      injection h with h
      subst h
      rw [List.map_cons, if_pos hx, List.find?_cons_of_pos _ (hp x hx)]
    · rw [List.find?_cons_of_neg _ hx] at h
      rw [List.map_cons, if_neg hx, List.find?_cons_of_neg _ hx]
      exact ih h

theorem gadgetMatches_of_fields {uid gid : String} {g h : Gadget}
    (hid : h.id = g.id) (huid : h.userId = g.userId)
    (hg : gadgetMatches uid gid g = true) : gadgetMatches uid gid h = true := by
  simp only [gadgetMatches, decide_eq_true_eq] at *
  exact ⟨hid.trans hg.1, huid.trans hg.2⟩

/-- C1: for a caller-owned gadget with a stored confirmation code, calling
`confirmSelfDestruct` with the matching code succeeds with the gadget's id
and name, and the single atomic row update leaves the gadget with
`status = DESTROYED`, `confirmationCode = null`, and every other field as
it was. -/
theorem confirmSelfDestruct_matching_code (store : List Gadget) (uid gid code : String)
    (g : Gadget) (hfind : prismaFindUniqueGadget store uid gid = some g)
    (hcode : g.confirmationCode = some code) :
    (confirmSelfDestruct store uid gid code).2 = .ok ⟨g.id, g.name⟩ ∧
    prismaFindUniqueGadget (confirmSelfDestruct store uid gid code).1 uid gid =
      some { g with status := Status.DESTROYED, confirmationCode := none } := by
  have hfind' : store.find? (gadgetMatches uid gid) = some g := hfind
  have hupd : prismaUpdateGadget store uid gid
      (fun h => { h with status := .DESTROYED, confirmationCode := none }) =
      .ok (store.map fun h => if gadgetMatches uid gid h then
            { h with status := .DESTROYED, confirmationCode := none } else h,
          { g with status := .DESTROYED, confirmationCode := none }) := by
    unfold prismaUpdateGadget
    rw [hfind']
  have hrun : confirmSelfDestruct store uid gid code =
      ((store.map fun h => if gadgetMatches uid gid h then
          { h with status := .DESTROYED, confirmationCode := none } else h),
        .ok ⟨g.id, g.name⟩) := by
    unfold confirmSelfDestruct confirmSelfDestructBody
    rw [hfind, hupd]
    simp [hcode]
  refine ⟨by rw [hrun], ?_⟩
  rw [hrun]
  exact find?_map_update _ _ _ _
    (fun x hx => gadgetMatches_of_fields rfl rfl hx) hfind'

/-- Witness for C1: destroying the pending demo gadget with its stored code
`"ABCDEF"` succeeds and leaves the row destroyed with the code cleared. -/
theorem confirmSelfDestruct_matching_code_witness :
    (confirmSelfDestruct pendingStore "u1" "g1" "ABCDEF").2 =
      .ok ⟨"g1", "the-silent-falcon"⟩ ∧
    prismaFindUniqueGadget (confirmSelfDestruct pendingStore "u1" "g1" "ABCDEF").1 "u1" "g1" =
      some { pendingGadget with status := Status.DESTROYED, confirmationCode := none } :=
  confirmSelfDestruct_matching_code pendingStore "u1" "g1" "ABCDEF" pendingGadget
    (by decide) (by decide)

/-- C2: on a code mismatch the gadget is indeed left unchanged, but the
dedicated invalid-code error never reaches the caller: the throw happens
inside the function's own `try`, so the `catch` rewraps it and the caller
sees only the generic internal error.  The first conjunct evaluates the
exported function at the failing input, the second shows the inner body did
raise the distinct invalid-code error that the wrapper then discards. -/
theorem confirmSelfDestruct_mismatch_swallowed :
    confirmSelfDestruct pendingStore "u1" "g1" "WRONGC" =
      (pendingStore, .error "Internal server error") ∧
    confirmSelfDestructBody pendingStore "u1" "g1" "WRONGC" =
      (pendingStore, .error "Invalid confirmation code") := by
  constructor <;> rfl

/-- C3: the confirmation code is not always 6 characters long.  With the
six random bytes all `0xFF` the base64 encoding is `"////////"`, the
letters-only filter removes everything, and the persisted code is the empty
string; the update still succeeds and touches nothing but
`confirmationCode` (the status stays `AVAILABLE`). -/
theorem initiateSelfDestruct_code_shortfall :
    (confirmationCodeFromBytes [255, 255, 255, 255, 255, 255]).length = 0 ∧
    (confirmationCodeFromBytes [255, 255, 255, 255, 255, 255]).length ≠ 6 ∧
    initiateSelfDestruct pendingStore "u1" "g1" [255, 255, 255, 255, 255, 255] =
      ([{ pendingGadget with confirmationCode := some "" }],
        .ok ⟨"g1", "the-silent-falcon", some ""⟩) := by
  refine ⟨by decide, by decide, by rfl⟩

/-- C6 counterexample: calling `confirmSelfDestruct` on a gadget owned by a
different user does not surface the merged not-found-or-unauthorized error
the claim names: the surfaced error is the generic internal one (the
not-found throw is swallowed by the catch-all). -/
theorem confirm_foreign_owner_error_is_internal :
    (confirmSelfDestruct otherOwnerStore "u1" "g1" "ABCDEF").2 =
      .error "Internal server error" ∧
    "Internal server error" ≠
      "Gadget not found or you do not have permission to self-destruct it" := by
  exact ⟨by rfl, by decide⟩

/-- C6 amended: whenever no gadget row carries the requested id under the
calling owner — covering both a non-existent id and an id owned by someone
else — each of the four operations returns one fixed outcome with the store
untouched: the merged not-found-or-unauthorized error for `updateStatus`,
`decommission` and `initiateSelfDestruct`, and the generic internal error
for `confirmSelfDestruct`.  The two indistinguishable scenarios therefore
produce identical outcomes and ownership is never revealed. -/
theorem notFound_or_foreign_owner_uniform (store : List Gadget) (uid gid : String)
    (h : ∀ g ∈ store, ¬(g.id = gid ∧ g.userId = uid)) :
    (∀ st, updateGadgetStatus store uid gid st =
        (store, .error "Gadget not found or you do not have permission to update it")) ∧
    (∀ now, decommissionGadget store uid gid now =
        (store, .error "Gadget not found or you do not have permission to delete it")) ∧
    (∀ bytes, initiateSelfDestruct store uid gid bytes =
        (store, .error "Gadget not found or you do not have permission to self-destruct it")) ∧
    (∀ code, confirmSelfDestruct store uid gid code =
        (store, .error "Internal server error")) := by
  have hfind : store.find? (gadgetMatches uid gid) = none := by
    rw [List.find?_eq_none]
    intro g hg
    simpa [gadgetMatches] using h g hg
  have hupd : ∀ f, prismaUpdateGadget store uid gid f = .error .P2025 := by
    intro f
    unfold prismaUpdateGadget
    rw [hfind]
  refine ⟨fun st => ?_, fun now => ?_, fun bytes => ?_, fun code => ?_⟩
  · unfold updateGadgetStatus
    rw [hupd]
  · unfold decommissionGadget
    rw [hupd]
  · unfold initiateSelfDestruct
    rw [hupd]
  · unfold confirmSelfDestruct confirmSelfDestructBody
    have hfu : prismaFindUniqueGadget store uid gid = none := hfind
    rw [hfu]

/-- Witness for the amended C6: against the store whose only `g1` belongs
to user 2, every operation invoked by user 1 yields its fixed
store-untouched outcome. -/
theorem notFound_or_foreign_owner_uniform_witness :
    updateGadgetStatus otherOwnerStore "u1" "g1" Status.DEPLOYED =
      (otherOwnerStore, .error "Gadget not found or you do not have permission to update it") ∧
    decommissionGadget otherOwnerStore "u1" "g1" 0 =
      (otherOwnerStore, .error "Gadget not found or you do not have permission to delete it") ∧
    initiateSelfDestruct otherOwnerStore "u1" "g1" [0, 0, 0, 0, 0, 0] =
      (otherOwnerStore, .error "Gadget not found or you do not have permission to self-destruct it") ∧
    confirmSelfDestruct otherOwnerStore "u1" "g1" "ABCDEF" =
      (otherOwnerStore, .error "Internal server error") := by
  have h := notFound_or_foreign_owner_uniform otherOwnerStore "u1" "g1" (by decide)
  exact ⟨h.1 _, h.2.1 _, h.2.2.1 _, h.2.2.2 _⟩

/-! ## Creation retry lemmas -/

theorem createGadgetLoop_attempts_le (uid nid : String)
    (rnd : Nat → Fin adjectives.length × Fin nouns.length) (store : List Gadget) :
    ∀ fuel i, (createGadgetLoop uid nid rnd store i fuel).2 ≤ i + fuel := by
  intro fuel
  induction fuel with
  | zero =>
    intro i
    simp [createGadgetLoop]
  | succ n ih =>
    intro i
    cases hcr : prismaCreateGadget store (generateGadgetName (rnd i).1 (rnd i).2) uid nid with
    | ok p =>
      simp [createGadgetLoop, hcr]
    | error e =>
      cases e with
      | P2002 =>
        simp only [createGadgetLoop, hcr]
        have := ih (i + 1)
        omega
      | P2025 =>
        simp [createGadgetLoop, hcr]
      | unknown =>
        simp [createGadgetLoop, hcr]

theorem createGadgetLoop_all_taken (uid nid : String)
    (rnd : Nat → Fin adjectives.length × Fin nouns.length) (store : List Gadget)
    (H : ∀ k, k < MAX_RETRIES →
      (store.any fun g => decide (g.name = generateGadgetName (rnd k).1 (rnd k).2)) = true) :
    ∀ fuel i, i + fuel = MAX_RETRIES →
      createGadgetLoop uid nid rnd store i fuel =
        ((store, .error "Failed to generate unique gadget name after multiple attempts"),
          MAX_RETRIES) := by
  intro fuel
  induction fuel with
  | zero =>
    intro i hi
    have hieq : i = MAX_RETRIES := by omega
    subst hieq
    rfl
  | succ n ih =>
    intro i hi
    have hk := H i (by omega)
    have hcr : prismaCreateGadget store (generateGadgetName (rnd i).1 (rnd i).2) uid nid =
        .error .P2002 := by
      unfold prismaCreateGadget
      rw [if_pos hk]
    simp only [createGadgetLoop, hcr]
    exact ih (i + 1) (by omega)

/-- C4: gadget creation performs at most 5 insert attempts, and when every
one of the five generated names already exists in the store it fails with
the name-exhaustion error after exactly 5 attempts, leaving the store
unchanged. -/
theorem createGadget_bounded_retry :
    (∀ store uid rnd nid, createGadgetAttempts store uid rnd nid ≤ MAX_RETRIES) ∧
    (∀ store uid rnd nid,
      (∀ k, k < MAX_RETRIES →
        (store.any fun g => decide (g.name = generateGadgetName (rnd k).1 (rnd k).2)) = true) →
      createGadget store uid rnd nid =
        (store, .error "Failed to generate unique gadget name after multiple attempts") ∧
      createGadgetAttempts store uid rnd nid = MAX_RETRIES) := by
  constructor
  · intro store uid rnd nid
    have h := createGadgetLoop_attempts_le uid nid rnd store MAX_RETRIES 0
    simpa [createGadgetAttempts] using h
  · intro store uid rnd nid H
    have h := createGadgetLoop_all_taken uid nid rnd store H MAX_RETRIES 0 (by omega)
    constructor
    · unfold createGadget
      rw [h]
    · unfold createGadgetAttempts
      rw [h]

/-- Witness for C4: against a store already holding `the-silent-falcon` —
the only name the constant stream `rnd0` generates — creation fails with
the exhaustion error after exactly 5 attempts. -/
theorem createGadget_bounded_retry_witness :
    createGadget collideStore "u1" rnd0 "g9" =
      (collideStore, .error "Failed to generate unique gadget name after multiple attempts") ∧
    createGadgetAttempts collideStore "u1" rnd0 "g9" = MAX_RETRIES :=
  createGadget_bounded_retry.2 collideStore "u1" rnd0 "g9" (by decide)

theorem createGadgetLoop_ok_shape (uid nid : String)
    (rnd : Nat → Fin adjectives.length × Fin nouns.length) (store : List Gadget) :
    ∀ fuel i s v, (createGadgetLoop uid nid rnd store i fuel).1 = (s, .ok v) →
      v.status = Status.AVAILABLE ∧
      ∃ a, a ∈ adjectives ∧ ∃ b, b ∈ nouns ∧ v.name = "the-" ++ a ++ "-" ++ b := by
  intro fuel
  induction fuel with
  | zero =>
    intro i s v h
    simp [createGadgetLoop] at h
  | succ n ih =>
    intro i s v h
    cases hcr : prismaCreateGadget store (generateGadgetName (rnd i).1 (rnd i).2) uid nid with
    | ok p =>
      have hp : p.2.status = Status.AVAILABLE ∧
          p.2.name = generateGadgetName (rnd i).1 (rnd i).2 := by
        unfold prismaCreateGadget at hcr
        split at hcr
        · exact absurd hcr (by simp)
        · injection hcr with hcr
          subst hcr
          exact ⟨rfl, rfl⟩
      simp only [createGadgetLoop, hcr] at h
      injection h with h1 h2
      injection h2 with h2
      subst h2
      refine ⟨hp.1, adjectives.get (rnd i).1, List.get_mem _ _ _, nouns.get (rnd i).2,
        List.get_mem _ _ _, ?_⟩
      rw [hp.2]
      rfl
    | error e =>
      cases e with
      | P2002 =>
        simp only [createGadgetLoop, hcr] at h
        exact ih (i + 1) s v h
      | P2025 =>
        simp [createGadgetLoop, hcr] at h
      | unknown =>
        simp [createGadgetLoop, hcr] at h

/-- C7: every successful creation returns a gadget whose status is
`AVAILABLE` and whose name is `the-<adjective>-<noun>` with the adjective
and noun drawn from the two fixed 16-entry lists. -/
theorem createGadget_success_shape (store : List Gadget) (uid : String)
    (rnd : Nat → Fin adjectives.length × Fin nouns.length) (nid : String)
    (s : List Gadget) (v : GadgetView) (h : createGadget store uid rnd nid = (s, .ok v)) :
    v.status = Status.AVAILABLE ∧
    ∃ a, a ∈ adjectives ∧ ∃ b, b ∈ nouns ∧ v.name = "the-" ++ a ++ "-" ++ b :=
  createGadgetLoop_ok_shape uid nid rnd store MAX_RETRIES 0 s v h

/-- Witness for C7: creating from the empty store with the constant stream
`rnd0` yields an `AVAILABLE` gadget named `the-silent-falcon`. -/
theorem createGadget_success_shape_witness :
    (⟨"g1", "the-silent-falcon", Status.AVAILABLE⟩ : GadgetView).status = Status.AVAILABLE ∧
    ∃ a, a ∈ adjectives ∧ ∃ b, b ∈ nouns ∧
      (⟨"g1", "the-silent-falcon", Status.AVAILABLE⟩ : GadgetView).name =
        "the-" ++ a ++ "-" ++ b :=
  createGadget_success_shape [] "u1" rnd0 "g1" demoCreated
    ⟨"g1", "the-silent-falcon", Status.AVAILABLE⟩ (by rfl)

/-! ## Decommission-timestamp invariant -/

theorem storeStamped_map_update (s : List Gadget) (p : Gadget → Bool) (f : Gadget → Gadget)
    (hs : StoreStamped s) (hf : ∀ g, decomStamped g → decomStamped (f g)) :
    StoreStamped (s.map fun g => if p g then f g else g) := by
  intro g2 hg2
  rcases List.mem_map.1 hg2 with ⟨g, hg, rfl⟩
  by_cases hp : p g = true
  · rw [if_pos hp]
    exact hf g (hs g hg)
  · rw [if_neg hp]
    exact hs g hg

theorem storeStamped_prismaUpdate (s : List Gadget) (uid gid : String) (f : Gadget → Gadget)
    (hs : StoreStamped s) (hf : ∀ g, decomStamped g → decomStamped (f g))
    (s2 : List Gadget) (g : Gadget) (h : prismaUpdateGadget s uid gid f = .ok (s2, g)) :
    StoreStamped s2 := by
  unfold prismaUpdateGadget at h
  cases hfind : s.find? (gadgetMatches uid gid) with
  | none =>
    rw [hfind] at h
    exact absurd h (by simp)
  | some g0 =>
    rw [hfind] at h
    injection h with h
    injection h with h1 h2
    subst h1
    exact storeStamped_map_update s _ f hs hf

theorem storeStamped_updateGadgetStatus (s : List Gadget) (uid gid : String) (st : Status)
    (hst : st ≠ Status.DECOMMISSIONED) (hs : StoreStamped s) :
    StoreStamped (updateGadgetStatus s uid gid st).1 := by
  unfold updateGadgetStatus
  cases hup : prismaUpdateGadget s uid gid (fun g => { g with status := st }) with
  | ok p =>
    rcases p with ⟨s2, g⟩
    have : StoreStamped s2 :=
      storeStamped_prismaUpdate s uid gid _ hs
        (fun g _ hd => absurd hd hst) s2 g hup
    simpa using this
  | error e =>
    cases e <;> simpa using hs

theorem storeStamped_decommissionGadget (s : List Gadget) (uid gid : String) (now : Nat)
    (hs : StoreStamped s) : StoreStamped (decommissionGadget s uid gid now).1 := by
  unfold decommissionGadget
  cases hup : prismaUpdateGadget s uid gid
      (fun g => { g with decommissionedAt := some now, status := .DECOMMISSIONED }) with
  | ok p =>
    rcases p with ⟨s2, g⟩
    have : StoreStamped s2 :=
      storeStamped_prismaUpdate s uid gid _ hs
        (fun g _ _ => by simp) s2 g hup
    simpa using this
  | error e =>
    cases e <;> simpa using hs

theorem storeStamped_initiateSelfDestruct (s : List Gadget) (uid gid : String)
    (bytes : List Nat) (hs : StoreStamped s) :
    StoreStamped (initiateSelfDestruct s uid gid bytes).1 := by
  unfold initiateSelfDestruct
  cases hup : prismaUpdateGadget s uid gid
      (fun g => { g with confirmationCode := some (confirmationCodeFromBytes bytes) }) with
  | ok p =>
    rcases p with ⟨s2, g⟩
    have : StoreStamped s2 :=
      storeStamped_prismaUpdate s uid gid
        (fun g => { g with confirmationCode := some (confirmationCodeFromBytes bytes) })
        hs (fun g hg => hg) s2 g hup
    simpa using this
  | error e =>
    cases e <;> simpa using hs

theorem storeStamped_confirmSelfDestruct (s : List Gadget) (uid gid code : String)
    (hs : StoreStamped s) : StoreStamped (confirmSelfDestruct s uid gid code).1 := by
  unfold confirmSelfDestruct
  rcases hbody : confirmSelfDestructBody s uid gid code with ⟨s2, r⟩
  cases r with
  | error e =>
    simpa [hbody] using hs
  | ok v =>
    simp only [hbody]
    unfold confirmSelfDestructBody at hbody
    cases hfind : prismaFindUniqueGadget s uid gid with
    | none =>
      rw [hfind] at hbody
      exact absurd hbody (by simp)
    | some g0 =>
      simp only [hfind] at hbody
      by_cases hcode : g0.confirmationCode ≠ some code
      · rw [if_pos hcode] at hbody
        exact absurd hbody (by simp)
      · rw [if_neg hcode] at hbody
        cases hup : prismaUpdateGadget s uid gid
            (fun h => { h with status := .DESTROYED, confirmationCode := none }) with
        | ok p =>
          rcases p with ⟨s3, g3⟩
          simp only [hup] at hbody
          have hb1 : s3 = s2 := congrArg Prod.fst hbody
          subst hb1
          exact storeStamped_prismaUpdate s uid gid
            (fun h => { h with status := .DESTROYED, confirmationCode := none }) hs
            (fun g _ hd => absurd hd (by simp)) s3 g3 hup
        | error e2 =>
          simp only [hup] at hbody
          exact absurd hbody (by simp)

theorem storeStamped_updateGadget (s : List Gadget) (uid gid target : String)
    (hs : StoreStamped s) : StoreStamped (updateGadget s uid gid target).1 := by
  unfold updateGadget
  split
  · exact hs
  · split
    · exact hs
    · have hst : (if strToUpper target = "AVAILABLE" then Status.AVAILABLE
          else Status.DEPLOYED) ≠ Status.DECOMMISSIONED := by
        split <;> simp
      have h := storeStamped_updateGadgetStatus s uid gid _ hst hs
      rcases hres : updateGadgetStatus s uid gid
          (if strToUpper target = "AVAILABLE" then Status.AVAILABLE
           else Status.DEPLOYED) with ⟨s2, r⟩
      rw [hres] at h
      simp only [hres]
      cases r <;> simpa using h

theorem storeStamped_createGadget (store : List Gadget) (uid : String)
    (rnd : Nat → Fin adjectives.length × Fin nouns.length) (nid : String)
    (hs : StoreStamped store) : StoreStamped (createGadget store uid rnd nid).1 := by
  suffices h : ∀ fuel i, StoreStamped (createGadgetLoop uid nid rnd store i fuel).1.1 by
    exact h MAX_RETRIES 0
  intro fuel
  induction fuel with
  | zero =>
    intro i
    simpa [createGadgetLoop] using hs
  | succ n ih =>
    intro i
    cases hcr : prismaCreateGadget store (generateGadgetName (rnd i).1 (rnd i).2) uid nid with
    | ok p =>
      rcases p with ⟨s2, g⟩
      have hp1 : StoreStamped s2 := by
        unfold prismaCreateGadget at hcr
        split at hcr
        · exact absurd hcr (by simp)
        · injection hcr with hcr
          injection hcr with hcr1 hcr2
          subst hcr1
          intro g2 hg2
          rcases List.mem_append.1 hg2 with hg2 | hg2
          · exact hs g2 hg2
          · rcases List.mem_singleton.1 hg2 with rfl
            intro habs
            exact absurd habs (by simp)
      simp only [createGadgetLoop, hcr]
      exact hp1
    | error e =>
      cases e with
      | P2002 =>
        simp only [createGadgetLoop, hcr]
        exact ih (i + 1)
      | P2025 =>
        simp only [createGadgetLoop, hcr]
        exact hs
      | unknown =>
        simp only [createGadgetLoop, hcr]
        exact hs

theorem reach_storeStamped (s : List Gadget) (hs : Reach s) : StoreStamped s := by
  induction hs with
  | empty => intro g hg; cases hg
  | create s uid rnd nid _ ih => exact storeStamped_createGadget s uid rnd nid ih
  | update s uid gid target _ ih => exact storeStamped_updateGadget s uid gid target ih
  | decommission s uid gid now _ ih => exact storeStamped_decommissionGadget s uid gid now ih
  | selfDestructInit s uid gid bytes _ ih =>
      exact storeStamped_initiateSelfDestruct s uid gid bytes ih
  | selfDestructConfirm s uid gid code _ ih =>
      exact storeStamped_confirmSelfDestruct s uid gid code ih

/-- C5 counterexample: the claimed if-and-only-if invariant fails on a
reachable state.  Create a gadget, decommission it, then update its status
back to `DEPLOYED` through the generic update operation (nothing excludes
terminal gadgets from its scope): the decommission timestamp survives while
the status is no longer `DECOMMISSIONED`. -/
theorem decommission_stamp_iff_fails :
    Reach demoRevived ∧
    ¬ ∀ g ∈ demoRevived, (g.decommissionedAt ≠ none ↔ g.status = Status.DECOMMISSIONED) := by
  constructor
  · exact Reach.update demoDecommissioned "u1" "g1" "deployed"
      (Reach.decommission demoCreated "u1" "g1" 5
        (Reach.create [] "u1" rnd0 "g1" Reach.empty))
  · decide

/-- C5 amended: over every reachable store state, one direction of the
claimed invariant holds — every `DECOMMISSIONED` gadget carries a non-null
`decommissionedAt`.  The converse direction is false (see the
counterexample): once a decommissioned gadget is mutated again, the
timestamp survives under a non-`DECOMMISSIONED` status. -/
theorem reach_decommissioned_stamped (s : List Gadget) (hs : Reach s) :
    ∀ g ∈ s, g.status = Status.DECOMMISSIONED → g.decommissionedAt ≠ none :=
  reach_storeStamped s hs

/-- Witness for the amended C5: the decommissioned demo gadget, in the
reachable state that decommissioning produces, carries timestamp 5. -/
theorem reach_decommissioned_stamped_witness :
    (⟨"g1", "the-silent-falcon", Status.DECOMMISSIONED, some 5, none, "u1"⟩ : Gadget).decommissionedAt
      ≠ none :=
  reach_decommissioned_stamped demoDecommissioned
    (Reach.decommission demoCreated "u1" "g1" 5 (Reach.create [] "u1" rnd0 "g1" Reach.empty))
    ⟨"g1", "the-silent-falcon", Status.DECOMMISSIONED, some 5, none, "u1"⟩
    (by decide) (by decide)

/-! ## Listing lemmas -/

theorem mem_displayAll (prob : Nat → Nat) (l : List GadgetListItem) (k : Nat) (line : String)
    (h : line ∈ displayAll prob k l) :
    ∃ v, v ∈ l ∧ ∃ j, line = displayLine v.name (prob j) := by
  induction l generalizing k with
  | nil => cases h
  | cons x xs ih =>
    rcases List.mem_cons.1 h with h | h
    · exact ⟨x, List.mem_cons_self x xs, k, h⟩
    · rcases ih (k + 1) h with ⟨v, hv, j, hl⟩
      exact ⟨v, List.mem_cons_of_mem x hv, j, hl⟩

theorem mem_getGadgets_all (store : List Gadget) (uid : String) (v : GadgetListItem)
    (h : v ∈ getGadgets store "ALL" uid) :
    ∃ g, g ∈ store ∧ g.userId = uid ∧
      (g.status = Status.AVAILABLE ∨ g.status = Status.DEPLOYED) ∧
      v = ⟨g.id, g.name⟩ := by
  unfold getGadgets at h
  rcases List.mem_map.1 h with ⟨g, hg, rfl⟩
  rcases List.mem_filter.1 hg with ⟨hmem, hcond⟩
  rw [decide_eq_true_eq] at hcond
  rw [if_neg (by simp)] at hcond
  exact ⟨g, hmem, hcond.1, hcond.2, rfl⟩

theorem mem_getGadgets_typed (store : List Gadget) (type uid : String) (htype : type ≠ "ALL")
    (v : GadgetListItem) (h : v ∈ getGadgets store type uid) :
    ∃ g, g ∈ store ∧ g.userId = uid ∧ statusToString g.status = type ∧
      v = ⟨g.id, g.name⟩ := by
  unfold getGadgets at h
  rcases List.mem_map.1 h with ⟨g, hg, rfl⟩
  rcases List.mem_filter.1 hg with ⟨hmem, hcond⟩
  rw [decide_eq_true_eq] at hcond
  rw [if_pos htype] at hcond
  exact ⟨g, hmem, hcond.1, hcond.2, rfl⟩

theorem status_of_toString_available {st : Status} (h : statusToString st = "AVAILABLE") :
    st = Status.AVAILABLE := by
  cases st <;> revert h <;> decide

theorem status_of_toString_deployed {st : Status} (h : statusToString st = "DEPLOYED") :
    st = Status.DEPLOYED := by
  cases st <;> revert h <;> decide

/-- C8: the unfiltered listing shows only the caller's `AVAILABLE` and
`DEPLOYED` gadgets (terminal-state gadgets are hidden), and a
case-insensitive `available` or `deployed` filter shows only the caller's
gadgets with exactly that status; every displayed line is the gadget name
with a rolled probability. -/
theorem listGadgets_filtering :
    (∀ store uid prob line, line ∈ (getAllGadgets store uid none prob).gadgets →
      ∃ g, g ∈ store ∧ g.userId = uid ∧
        (g.status = Status.AVAILABLE ∨ g.status = Status.DEPLOYED) ∧
        ∃ k, line = displayLine g.name (prob k)) ∧
    (∀ store uid s prob line, strToLower s = "available" →
      line ∈ (getAllGadgets store uid (some s) prob).gadgets →
      ∃ g, g ∈ store ∧ g.userId = uid ∧ g.status = Status.AVAILABLE ∧
        ∃ k, line = displayLine g.name (prob k)) ∧
    (∀ store uid s prob line, strToLower s = "deployed" →
      line ∈ (getAllGadgets store uid (some s) prob).gadgets →
      ∃ g, g ∈ store ∧ g.userId = uid ∧ g.status = Status.DEPLOYED ∧
        ∃ k, line = displayLine g.name (prob k)) := by
  refine ⟨?_, ?_, ?_⟩
  · intro store uid prob line h
    have h2 : line ∈ displayAll prob 0 (getGadgets store "ALL" uid) := h
    rcases mem_displayAll prob _ 0 line h2 with ⟨v, hv, j, hl⟩
    rcases mem_getGadgets_all store uid v hv with ⟨g, hg, huid, hstat, hveq⟩
    subst hveq
    exact ⟨g, hg, huid, hstat, j, hl⟩
  · intro store uid s prob line hs h
    have hne : s ≠ "" := by
      intro he
      subst he
      exact absurd hs (by decide)
    have hcont : allowedStatuses.contains (strToLower s) = true := by
      rw [hs]
      decide
    have hup : strToUpper s = "AVAILABLE" := by
      rw [strToUpper_of_strToLower hs]
      decide
    have h2 : line ∈ displayAll prob 0 (getGadgets store (strToUpper s) uid) := by
      simp only [getAllGadgets] at h
      rw [if_pos ⟨hne, hcont⟩] at h
      exact h
    rw [hup] at h2
    rcases mem_displayAll prob _ 0 line h2 with ⟨v, hv, j, hl⟩
    rcases mem_getGadgets_typed store "AVAILABLE" uid (by decide) v hv with
      ⟨g, hg, huid, hst, hveq⟩
    subst hveq
    exact ⟨g, hg, huid, status_of_toString_available hst, j, hl⟩
  · intro store uid s prob line hs h
    have hne : s ≠ "" := by
      intro he
      subst he
      exact absurd hs (by decide)
    have hcont : allowedStatuses.contains (strToLower s) = true := by
      rw [hs]
      decide
    have hup : strToUpper s = "DEPLOYED" := by
      rw [strToUpper_of_strToLower hs]
      decide
    have h2 : line ∈ displayAll prob 0 (getGadgets store (strToUpper s) uid) := by
      simp only [getAllGadgets] at h
      rw [if_pos ⟨hne, hcont⟩] at h
      exact h
    rw [hup] at h2
    rcases mem_displayAll prob _ 0 line h2 with ⟨v, hv, j, hl⟩
    rcases mem_getGadgets_typed store "DEPLOYED" uid (by decide) v hv with
      ⟨g, hg, huid, hst, hveq⟩
    subst hveq
    exact ⟨g, hg, huid, status_of_toString_deployed hst, j, hl⟩

/-- Witness for C8: in the mixed demo store, the line the `Available`
filter displays for user 1 comes from an `AVAILABLE` gadget of user 1. -/
theorem listGadgets_filtering_witness :
    ∃ g, g ∈ mixedStore ∧ g.userId = "u1" ∧ g.status = Status.AVAILABLE ∧
      ∃ k, "the-silent-falcon - 42% success probability" = displayLine g.name (prob42 k) :=
  listGadgets_filtering.2.1 mixedStore "u1" "Available" prob42
    "the-silent-falcon - 42% success probability" (by decide) (by decide)

/-- C9: the update controller rejects any target status outside
`available`/`deployed` (case-insensitively) with the validation error,
before any store call: the store comes back untouched. -/
theorem updateGadget_rejects_invalid_status (store : List Gadget) (uid gid target : String)
    (hgid : gid ≠ "") (htarget : target ≠ "")
    (hbad : strToLower target ∉ allowedStatuses) :
    updateGadget store uid gid target =
      (store, .err 400 "Invalid status. Allowed statuses are: available & deployed") := by
  have hc : allowedStatuses.contains (strToLower target) = false := by
    simpa using hbad
  unfold updateGadget
  rw [if_neg (by
    intro h
    rcases h with h | h
    · exact hgid h
    · exact htarget h)]
  rw [if_pos (by rw [hc]; rfl)]

/-- Witness for C9: requesting target status `destroyed` is rejected with
the validation error and the store is unchanged. -/
theorem updateGadget_rejects_invalid_status_witness :
    updateGadget mixedStore "u1" "g1" "destroyed" =
      (mixedStore, .err 400 "Invalid status. Allowed statuses are: available & deployed") :=
  updateGadget_rejects_invalid_status mixedStore "u1" "g1" "destroyed"
    (by decide) (by decide) (by decide)

/-- C10: a status filter outside `available`/`deployed` (for example
`destroyed`) produces no error: the listing controller silently ignores it
and returns exactly the unfiltered response. -/
theorem listGadgets_invalid_filter_ignored (store : List Gadget) (uid s : String)
    (prob : Nat → Nat) (hbad : strToLower s ∉ allowedStatuses) :
    getAllGadgets store uid (some s) prob = getAllGadgets store uid none prob := by
  have hc : allowedStatuses.contains (strToLower s) = false := by
    simpa using hbad
  simp only [getAllGadgets]
  rw [if_neg (by
    intro h
    rw [hc] at h
    exact absurd h.2 (by simp))]

/-- Witness for C10: the `destroyed` filter on the mixed demo store yields
the same response as no filter at all. -/
theorem listGadgets_invalid_filter_ignored_witness :
    getAllGadgets mixedStore "u1" (some "destroyed") prob42 =
      getAllGadgets mixedStore "u1" none prob42 :=
  listGadgets_invalid_filter_ignored mixedStore "u1" "destroyed" prob42 (by decide)

end Phoenix
